import Mathlib

/-!
Shallow embedding of the CFR decompiler MCP server, versions
`cfr_mcp_server.py` (v1) and `cfr_mcp_server_v2.py` (v2).

Pure string manipulation is translated directly.  External effects are
made explicit: the child-process layer is parameterised by a function
`List String → ExecOutcome` giving the outcome of each spawned command,
archive extraction by a function `String → Except String String` (an
exception message, or the extracted file path), and the filesystem by a
`Sys` record.  Every observable side effect of a dispatch (workspace
creation, entry extraction, child-process invocation) is recorded in an
`Event` trace so that claims about "no process is spawned" become
statements about the trace.
-/

namespace CfrServer

/-- An archive entry: its path inside the jar and its raw bytes
(values below 256). -/
structure JarEntry where
  filename : String
  content : List Nat
deriving DecidableEq

/-- A Java archive as the scanners see it: the file name
(`jar_path.name`), the byte size (`jar_path.stat().st_size`) and the
ordered list of zip entries. -/
structure JarFile where
  name : String
  size : Nat
  entries : List JarEntry
deriving DecidableEq

/-- Configuration constant `CFR_JAR_PATH` (both versions). -/
def CFR_JAR_PATH : String := "cfr.jar"

/-- Configuration constant `CMD_TIMEOUT_SECONDS` of v1. -/
def CMD_TIMEOUT_SECONDS_v1 : Nat := 30

/-- Configuration constant `CMD_TIMEOUT_SECONDS` of v2. -/
def CMD_TIMEOUT_SECONDS_v2 : Nat := 60

/-- Python substring test `sub in hay`. -/
def strContains (hay sub : String) : Bool := decide (sub.data <:+: hay.data)

/-- Python `s.endswith(suf)`. -/
def strEndsWith (s suf : String) : Bool := decide (suf.data <:+ s.data)

/-- Characters stripped by Python `str.strip()` (the ASCII ones). -/
def isPyWhite (c : Char) : Bool :=
  c == ' ' || c == '\t' || c == '\n' || c == '\r' || c == '\x0b' || c == '\x0c'

/-- Python `s.strip()`. -/
def strStrip (s : String) : String :=
  ⟨((s.data.dropWhile isPyWhite).reverse.dropWhile isPyWhite).reverse⟩

/-- Python `s.lower()` (ASCII case folding, which covers path suffixes). -/
def strLower (s : String) : String := ⟨s.data.map Char.toLower⟩

/-- UTF-8 encoding of a single code point, as byte values. -/
def utf8EncodeChar (c : Char) : List Nat :=
  let n := c.toNat
  if n < 128 then [n]
  else if n < 2048 then [192 + n / 64, 128 + n % 64]
  else if n < 65536 then [224 + n / 4096, 128 + n / 64 % 64, 128 + n % 64]
  else [240 + n / 262144, 128 + n / 4096 % 64, 128 + n / 64 % 64, 128 + n % 64]

/-- Python `s.encode('utf-8')`, as byte values. -/
def utf8Bytes (s : String) : List Nat := (s.data.map utf8EncodeChar).flatten

/-- ASCII letters and digits, the character class `[a-zA-Z0-9]`. -/
def isAlnumAscii (c : Char) : Bool :=
  ('a' ≤ c && c ≤ 'z') || ('A' ≤ c && c ≤ 'Z') || ('0' ≤ c && c ≤ '9')

/-- Translation of `validate_option_key`, i.e. of
`bool(re.match(r'^[a-zA-Z0-9]+$', key))`, with Python's regex semantics:
in Python the anchor `$` matches at the end of the string and also just
before a newline that ends the string, so the match succeeds iff the
key, or the key minus one trailing newline, is a nonempty run of ASCII
alphanumerics. -/
def validate_option_key (key : String) : Bool :=
  (decide (key.data ≠ []) && key.data.all isAlnumAscii)
  || (match key.data.reverse with
      | '\n' :: rest => decide (rest ≠ []) && rest.all isAlnumAscii
      | _ => false)

/-- Result of one `subprocess.run` call: normal completion with captured
stdout and stderr, expiry of the wall-clock timeout, or any other raised
execution failure with its message. -/
inductive ExecOutcome where
  | completed (stdout stderr : String)
  | timeout
  | failed (msg : String)
deriving DecidableEq

/-- Translation of v2 `run_cfr_sync`: returns the child's stdout with
non-empty stderr appended as a trailing comment block; a timeout or any
other failure becomes a diagnostic string.  The function is total over
every command vector and outcome: it always returns text. -/
def run_cfr_sync_v2 (exec : List String → ExecOutcome) (cmd : List String) : String :=
  match exec cmd with
  | .completed so se =>
      if se ≠ "" ∧ strStrip se ≠ "" then
        so ++ ("\n\n/*\n[CFR STDERR]\n" ++ se ++ "\n*/")
      else so
  | .timeout => "/* Error: Decompilation timed out. (反编译超时) */"
  | .failed e => "/* Error executing CFR: " ++ e ++ " */"

/-- Translation of v1 `run_cfr_sync`; identical control flow to v2 with
different diagnostic strings. -/
def run_cfr_sync_v1 (exec : List String → ExecOutcome) (cmd : List String) : String :=
  match exec cmd with
  | .completed so se =>
      if se ≠ "" ∧ strStrip se ≠ "" then
        so ++ ("\n\n/*\n[CFR STDERR]\n" ++ se ++ "\n*/")
      else so
  | .timeout =>
      "/* Error: Decompilation timed out. File might be too complex or large. (反编译超时，文件可能过大或过于复杂) */"
  | .failed e => "/* Error executing CFR (执行 CFR 出错): " ++ e ++ " */"

/-- Translation of `find_classes_in_jar`: the entries ending in
`.class` whose raw bytes contain the UTF-8 encoding of the method name
as a byte substring, in archive order. -/
def find_classes_in_jar (jar : JarFile) (method_name : String) : List String :=
  (jar.entries.filter (fun e =>
      strEndsWith e.filename ".class" &&
      decide (utf8Bytes method_name <:+: e.content))).map (fun e => e.filename)

/-- Python `class_name.replace('.', '/')`. -/
def replaceDotSlash (s : String) : String :=
  ⟨s.data.map (fun c => if c == '.' then '/' else c)⟩

/-- Left-to-right removal of every occurrence of `pat`, the semantics of
Python `s.replace(pat, '')`.  The fuel argument only bounds the number
of steps; each step strictly shortens the list, so `l.length` fuel never
runs out (and when fuel would run out the list is returned unchanged,
which also keeps the function kernel-computable). -/
def pyRemoveAllFuel (pat : List Char) : Nat → List Char → List Char
  | _, [] => []
  | 0, l => l
  | fuel + 1, c :: rest =>
    if pat ≠ [] ∧ pat <+: (c :: rest) then
      pyRemoveAllFuel pat fuel ((c :: rest).drop pat.length)
    else
      c :: pyRemoveAllFuel pat fuel rest

/-- Python `s.replace(pat, '')`. -/
def pyRemoveAll (pat : List Char) (l : List Char) : List Char :=
  pyRemoveAllFuel pat l.length l

/-- Python `class_name.replace('.class', '')`. -/
def removeClassOcc (s : String) : String := ⟨pyRemoveAll ".class".data s.data⟩

/-- Translation of `find_class_by_name_in_jar`: a query containing `.`
and not ending in `.class` is treated as fully qualified and matched
exactly against the translated path; any other query is treated as a
simple name and matched against `<Name>.class` exactly or as a
`/<Name>.class` suffix. -/
def find_class_by_name_in_jar (jar : JarFile) (class_name : String) : List String :=
  let exact_match := strContains class_name "." && ! strEndsWith class_name ".class"
  let target_path :=
    if exact_match then replaceDotSlash class_name ++ ".class"
    else removeClassOcc class_name ++ ".class"
  (jar.entries.filter (fun e =>
      strEndsWith e.filename ".class" &&
      (if exact_match then e.filename == target_path
       else (strEndsWith e.filename ("/" ++ target_path) || e.filename == target_path)))).map
    (fun e => e.filename)

/-- Observable side effects of a dispatch: creation of the temporary
workspace, extraction of one archive entry, and one child-process
invocation with its full command vector. -/
inductive Event where
  | workspace
  | extract (entry : String)
  | exec (cmd : List String)
deriving DecidableEq

/-- The effectful environment of the candidate loops: extraction of an
archive entry either raises (with a message) or yields the extracted
path, and each spawned command has an `ExecOutcome`. -/
structure World where
  extract : String → Except String String
  exec : List String → ExecOutcome

/-- The not-found message of `decompile_jar_method_sync`. -/
def notFoundMsgMethod (method_name jarName : String) (size : Nat) : String :=
  "/* Method '" ++ method_name ++ "' not found in any class within " ++ jarName ++
    " (scanned " ++ toString size ++ " bytes) */"

/-- The zero-retained-blocks message of `decompile_jar_method_sync`. -/
def noOutputMsgMethod (method_name : String) (n : Nat) : String :=
  "/* Method '" ++ method_name ++ "' matched binary search in " ++ toString n ++
    " classes but CFR produced no output. */"

/-- The not-found message of `decompile_jar_class_sync`. -/
def classNotFoundMsg (class_name jarName : String) : String :=
  "/* Class '" ++ class_name ++ "' not found in " ++ jarName ++
    ".\n   Tips: \n   - For simple name, use: 'BusTypeServiceImpl'\n   - For full path, use: 'nc.impl.fts.bustype.BusTypeServiceImpl'\n*/"

/-- The zero-retained-blocks message of `decompile_jar_class_sync`. -/
def classNoOutputMsg (n : Nat) : String :=
  "/* Found " ++ toString n ++ " class(es) but CFR produced no output. */"

/-- One iteration of the candidate loop of `decompile_jar_method_sync`:
extraction failure is caught and only logged (no block is appended);
otherwise CFR runs on the extracted file and the labeled block is kept
iff the method name occurs in the output. -/
def methodStep (w : World) (method_name : String) (base_cmd_args : List String)
    (class_file : String) : Option String × List Event :=
  match w.extract class_file with
  | .error _ => (none, [.extract class_file])
  | .ok extracted_path =>
      let cmd := ["java", "-jar", CFR_JAR_PATH, extracted_path] ++ base_cmd_args
      let output := run_cfr_sync_v2 w.exec cmd
      ((if strContains output method_name then
          some ("// Source: " ++ class_file ++ "\n" ++ output)
        else none),
       [.extract class_file, .exec cmd])

/-- One iteration of the candidate loop of `decompile_jar_class_sync`:
extraction failure is caught and recorded as a diagnostic block;
otherwise CFR runs and the labeled block is kept iff the output strips
to something non-empty. -/
def classStep (w : World) (base_cmd_args : List String)
    (class_file : String) : Option String × List Event :=
  match w.extract class_file with
  | .error e =>
      (some ("/* Failed to decompile " ++ class_file ++ ": " ++ e ++ " */"),
       [.extract class_file])
  | .ok extracted_path =>
      let cmd := ["java", "-jar", CFR_JAR_PATH, extracted_path] ++ base_cmd_args
      let output := run_cfr_sync_v2 w.exec cmd
      ((if output ≠ "" ∧ strStrip output ≠ "" then
          some ("// Source: " ++ class_file ++ "\n" ++ output)
        else none),
       [.extract class_file, .exec cmd])

/-- The retained blocks (`results` list) of `decompile_jar_method_sync`. -/
def decompile_jar_method_results (jar : JarFile) (method_name : String)
    (base_cmd_args : List String) (w : World) : List String :=
  (find_classes_in_jar jar method_name).filterMap
    (fun cf => (methodStep w method_name base_cmd_args cf).1)

/-- The event trace of the candidate loop of `decompile_jar_method_sync`. -/
def decompile_jar_method_trace (jar : JarFile) (method_name : String)
    (base_cmd_args : List String) (w : World) : List Event :=
  Event.workspace ::
    ((find_classes_in_jar jar method_name).map
      (fun cf => (methodStep w method_name base_cmd_args cf).2)).flatten

/-- Translation of `decompile_jar_method_sync`: scan, early return on an
empty candidate set, candidate loop, aggregation.  The second component
is the trace of observable side effects. -/
def decompile_jar_method_run (jar : JarFile) (method_name : String)
    (base_cmd_args : List String) (w : World) : String × List Event :=
  let candidates := find_classes_in_jar jar method_name
  if candidates = [] then
    (notFoundMsgMethod method_name jar.name jar.size, [])
  else
    let results := decompile_jar_method_results jar method_name base_cmd_args w
    if results = [] then
      (noOutputMsgMethod method_name candidates.length,
       decompile_jar_method_trace jar method_name base_cmd_args w)
    else
      (String.intercalate "\n\n" results,
       decompile_jar_method_trace jar method_name base_cmd_args w)

/-- The retained blocks (`results` list) of `decompile_jar_class_sync`. -/
def decompile_jar_class_results (jar : JarFile) (class_name : String)
    (base_cmd_args : List String) (w : World) : List String :=
  (find_class_by_name_in_jar jar class_name).filterMap
    (fun cf => (classStep w base_cmd_args cf).1)

/-- The event trace of the candidate loop of `decompile_jar_class_sync`. -/
def decompile_jar_class_trace (jar : JarFile) (class_name : String)
    (base_cmd_args : List String) (w : World) : List Event :=
  Event.workspace ::
    ((find_class_by_name_in_jar jar class_name).map
      (fun cf => (classStep w base_cmd_args cf).2)).flatten

/-- Translation of `decompile_jar_class_sync`. -/
def decompile_jar_class_run (jar : JarFile) (class_name : String)
    (base_cmd_args : List String) (w : World) : String × List Event :=
  let candidates := find_class_by_name_in_jar jar class_name
  if candidates = [] then
    (classNotFoundMsg class_name jar.name, [])
  else
    let results := decompile_jar_class_results jar class_name base_cmd_args w
    if results = [] then
      (classNoOutputMsg candidates.length,
       decompile_jar_class_trace jar class_name base_cmd_args w)
    else
      (String.intercalate "\n\n" results,
       decompile_jar_class_trace jar class_name base_cmd_args w)

/-- A scalar value of the JSON `options` mapping. -/
inductive PyVal where
  | pbool (b : Bool)
  | pstr (s : String)
  | pint (n : Int)
deriving DecidableEq

/-- Python `str(value).lower() if isinstance(value, bool) else str(value)`. -/
def pyValStr : PyVal → String
  | .pbool b => if b then "true" else "false"
  | .pstr s => s
  | .pint n => toString n

/-- The arguments object of a `decompile` tool call, typed as the input
schema declares them; a missing property is `none`. -/
structure Args where
  file_path : Option String := none
  class_name : Option String := none
  method_name : Option String := none
  ignore_exceptions : Option Bool := none
  hide_utf : Option Bool := none
  options : List (String × PyVal) := []

/-- Python truthiness of `arguments.get(...)` for a string property:
absent or empty is falsy. -/
def truthyS : Option String → Bool
  | none => false
  | some s => decide (s ≠ "")

/-- Python truthiness of `arguments.get(...)` for a boolean property. -/
def truthyB : Option Bool → Bool
  | none => false
  | some b => b

/-- The option loop of both dispatchers: keys failing
`validate_option_key` are skipped, each kept pair becomes the two
arguments `--<key>` and the rendered value, in mapping order. -/
def optionArgs (opts : List (String × PyVal)) : List String :=
  ((opts.filter (fun kv => validate_option_key kv.1)).map
    (fun kv => ["--" ++ kv.1, pyValStr kv.2])).flatten

/-- The `base_args` list assembled by v2 `call_tool` before dispatch. -/
def base_args_v2 (a : Args) : List String :=
  (if truthyB a.ignore_exceptions then ["--ignoreexceptions", "true"] else []) ++
  (if truthyB a.hide_utf then ["--hideutf", "true"] else []) ++
  ["--comments", "false"] ++ ["--showversion", "false"] ++ optionArgs a.options

/-- The filesystem and process environment of one tool call:
`Path(s).resolve()`, `Path(s).exists()`, `path.suffix`, the archive
content found at a path, and the extraction / process world. -/
structure Sys where
  resolve : String → String
  pathExists : String → Bool
  suffix : String → String
  jarAt : String → JarFile
  world : World

/-- Translation of v2 `call_tool`: `.error` models a raised
`ValueError`, `.ok` carries the returned text and the trace of
observable side effects. -/
def call_tool_v2 (name : String) (a : Args) (sys : Sys) :
    Except String (String × List Event) :=
  if name ≠ "decompile" then .error ("Unknown tool: " ++ name)
  else if truthyS a.file_path = false then .error "file_path is required"
  else
    let path := sys.resolve (a.file_path.getD "")
    if sys.pathExists path = false then
      .ok ("Error: File not found: " ++ path, [])
    else if sys.pathExists CFR_JAR_PATH = false then
      .ok ("Error: CFR jar not found at: " ++ CFR_JAR_PATH, [])
    else
      let base_args := base_args_v2 a
      if strLower (sys.suffix path) == ".jar" then
        if truthyS a.class_name then
          .ok (decompile_jar_class_run (sys.jarAt path) (a.class_name.getD "")
                 base_args sys.world)
        else if truthyS a.method_name then
          .ok (decompile_jar_method_run (sys.jarAt path) (a.method_name.getD "")
                 (base_args ++ ["--methodname", a.method_name.getD ""]) sys.world)
        else
          let cmd := ["java", "-jar", CFR_JAR_PATH, path] ++ base_args
          .ok (run_cfr_sync_v2 sys.world.exec cmd, [.exec cmd])
      else
        let base_args2 :=
          base_args ++
            (if truthyS a.method_name then ["--methodname", a.method_name.getD ""] else [])
        let cmd := ["java", "-jar", CFR_JAR_PATH, path] ++ base_args2
        .ok (run_cfr_sync_v2 sys.world.exec cmd, [.exec cmd])

/-- Translation of v1 `call_tool`: always a single invocation, with the
`--methodname` flag placed directly after the target path. -/
def call_tool_v1 (name : String) (a : Args) (sys : Sys) :
    Except String (String × List Event) :=
  if name ≠ "decompile" then .error ("Unknown tool (未知工具): " ++ name)
  else if truthyS a.file_path = false then .error "file_path is required (需要 file_path 参数)"
  else
    let path := sys.resolve (a.file_path.getD "")
    if sys.pathExists path = false then
      .ok ("Error: File not found (文件未找到): " ++ path, [])
    else if sys.pathExists CFR_JAR_PATH = false then
      .ok ("Error: CFR jar not found at (CFR jar 未找到): " ++ CFR_JAR_PATH, [])
    else
      let cmd :=
        ["java", "-jar", CFR_JAR_PATH, path] ++
        (if truthyS a.method_name then ["--methodname", a.method_name.getD ""] else []) ++
        (if truthyB a.ignore_exceptions then ["--ignoreexceptions", "true"] else []) ++
        (if truthyB a.hide_utf then ["--hideutf", "true"] else []) ++
        ["--comments", "false"] ++ ["--showversion", "false"] ++ optionArgs a.options
      .ok (run_cfr_sync_v1 sys.world.exec cmd, [.exec cmd])

/-! Helper lemmas about the string primitives and the scanners. -/

theorem strEndsWith_append (a b : String) : strEndsWith (a ++ b) b = true := by
  unfold strEndsWith
  rw [decide_eq_true_eq, String.data_append]
  exact List.suffix_append a.data b.data

theorem strEndsWith_of_suffix_trans (s a b : String)
    (h1 : strEndsWith s a = true) (h2 : b.data <:+ a.data) :
    strEndsWith s b = true := by
  unfold strEndsWith at h1 ⊢
  rw [decide_eq_true_eq] at h1 ⊢
  exact h2.trans h1

theorem mem_find_classes (jar : JarFile) (method_name cf : String)
    (h : cf ∈ find_classes_in_jar jar method_name) :
    ∃ e ∈ jar.entries, e.filename = cf ∧ strEndsWith cf ".class" = true ∧
      utf8Bytes method_name <:+: e.content := by
  unfold find_classes_in_jar at h
  rcases List.mem_map.1 h with ⟨e, he, rfl⟩
  rcases List.mem_filter.1 he with ⟨hmem, hp⟩
  simp only [Bool.and_eq_true, decide_eq_true_eq] at hp
  exact ⟨e, hmem, rfl, hp.1, hp.2⟩

theorem mem_find_class_by_name (jar : JarFile) (class_name cf : String)
    (h : cf ∈ find_class_by_name_in_jar jar class_name) :
    ∃ e ∈ jar.entries, e.filename = cf := by
  unfold find_class_by_name_in_jar at h
  simp only at h
  rcases List.mem_map.1 h with ⟨e, he, rfl⟩
  rcases List.mem_filter.1 he with ⟨hmem, -⟩
  exact ⟨e, hmem, rfl⟩

theorem marker_split (x y : List Char) :
    ∀ a : List Char, ∀ b : List Char, '\n' ∉ a → '\n' ∉ b →
      a ++ '\n' :: x = b ++ '\n' :: y → a = b ∧ x = y := by
  intro a
  induction a with
  | nil =>
    intro b ha hb h
    cases b with
    | nil => simpa using h
    | cons d bs =>
      simp only [List.nil_append, List.cons_append, List.cons.injEq] at h
      obtain ⟨h1, -⟩ := h
      subst h1
      exact absurd (List.mem_cons_self '\n' bs) hb
  | cons c as ih =>
    intro b ha hb h
    cases b with
    | nil =>
      simp only [List.cons_append, List.nil_append, List.cons.injEq] at h
      obtain ⟨h1, -⟩ := h
      subst h1
      exact absurd (List.mem_cons_self '\n' as) ha
    | cons d bs =>
      simp only [List.cons_append, List.cons.injEq] at h
      obtain ⟨hcd, hrest⟩ := h
      have ha' : '\n' ∉ as := fun hm => ha (List.mem_cons_of_mem c hm)
      have hb' : '\n' ∉ bs := fun hm => hb (List.mem_cons_of_mem d hm)
      obtain ⟨h1, h2⟩ := ih bs ha' hb' hrest
      exact ⟨by rw [hcd, h1], h2⟩

theorem block_inj (cf cf' out out' : String)
    (h1 : '\n' ∉ cf.data) (h2 : '\n' ∉ cf'.data)
    (h : "// Source: " ++ cf ++ "\n" ++ out = "// Source: " ++ cf' ++ "\n" ++ out') :
    cf = cf' ∧ out = out' := by
  have hd := congrArg String.data h
  simp only [String.data_append, List.append_assoc] at hd
  have hd' := List.append_cancel_left hd
  rw [List.singleton_append, List.singleton_append] at hd'
  obtain ⟨hcf, hout⟩ := marker_split out.data out'.data cf.data cf'.data h1 h2 hd'
  exact ⟨String.ext hcf, String.ext hout⟩

theorem append_tail_probe_ne (p q t u : String) (i : Nat)
    (hit : i < t.data.length) (hiu : i < u.data.length)
    (hne : t.data.reverse[i]? ≠ u.data.reverse[i]?) :
    p ++ t ≠ q ++ u := by
  intro h
  apply hne
  have hd := congrArg (fun s : String => s.data.reverse[i]?) h
  simp only [String.data_append, List.reverse_append] at hd
  rw [List.getElem?_append_left (by simpa using hit),
      List.getElem?_append_left (by simpa using hiu)] at hd
  exact hd

theorem noOutput_ne_notFound (m jarName : String) (k size : Nat) :
    noOutputMsgMethod m k ≠ notFoundMsgMethod m jarName size := by
  unfold noOutputMsgMethod notFoundMsgMethod
  exact append_tail_probe_ne _ _
    " classes but CFR produced no output. */" " bytes) */" 3
    (by decide) (by decide) (by decide)

theorem length_le_one_of_nodup_const {α : Type} (l : List α) (a : α)
    (hn : l.Nodup) (hall : ∀ x ∈ l, x = a) : l.length ≤ 1 := by
  match l with
  | [] => simp
  | [x] => simp
  | x :: y :: rest =>
    exfalso
    have hx := hall x (by simp)
    have hy := hall y (by simp)
    rw [List.nodup_cons] at hn
    exact hn.1 (by simp [hx, hy])

theorem pyRemoveAllFuel_dotclass_id (fuel : Nat) :
    ∀ l : List Char, '.' ∉ l → pyRemoveAllFuel ".class".data fuel l = l := by
  induction fuel with
  | zero =>
    intro l _
    cases l with
    | nil => rfl
    | cons c rest => rfl
  | succ f ih =>
    intro l h
    cases l with
    | nil => rfl
    | cons c rest =>
      have hc : c ≠ '.' := fun hc => h (hc ▸ List.mem_cons_self c rest)
      have hrest : '.' ∉ rest := fun hm => h (List.mem_cons_of_mem c hm)
      show (if ".class".data ≠ [] ∧ ".class".data <+: (c :: rest) then
          pyRemoveAllFuel ".class".data f ((c :: rest).drop ".class".data.length)
        else c :: pyRemoveAllFuel ".class".data f rest) = c :: rest
      rw [if_neg, ih rest hrest]
      rintro ⟨-, hpre⟩
      rw [show (".class" : String).data = '.' :: "class".data from rfl,
          List.cons_prefix_cons] at hpre
      exact hc hpre.1.symm

theorem removeClassOcc_no_dot (q : String) (h : '.' ∉ q.data) : removeClassOcc q = q := by
  unfold removeClassOcc pyRemoveAll
  rw [pyRemoveAllFuel_dotclass_id q.data.length q.data h]

theorem strContains_dot_false_iff (q : String) :
    strContains q "." = false ↔ '.' ∉ q.data := by
  unfold strContains
  rw [decide_eq_false_iff_not]
  constructor
  · intro h hm
    rcases List.append_of_mem hm with ⟨s, t, hq⟩
    refine h ⟨s, t, ?_⟩
    rw [hq, show ("." : String).data = ['.'] from rfl]
    simp
  · rintro h ⟨s, t, hst⟩
    apply h
    rw [← hst]
    simp [show ("." : String).data = ['.'] from rfl]

/-- Claim C3: `run_cfr_sync` is total over every command vector and
outcome and never raises: on normal completion it returns the child's
stdout with non-empty stderr appended as a trailing comment block, on
timeout it returns the fixed timeout diagnostic, and on any other
execution failure it returns a diagnostic text string. -/
theorem run_cfr_total_cases (exec : List String → ExecOutcome) (cmd : List String) :
    (∀ so se, exec cmd = .completed so se →
      (strStrip se = "" → run_cfr_sync_v2 exec cmd = so) ∧
      (strStrip se ≠ "" →
        run_cfr_sync_v2 exec cmd = so ++ ("\n\n/*\n[CFR STDERR]\n" ++ se ++ "\n*/"))) ∧
    (exec cmd = .timeout →
      run_cfr_sync_v2 exec cmd = "/* Error: Decompilation timed out. (反编译超时) */") ∧
    (∀ e, exec cmd = .failed e →
      run_cfr_sync_v2 exec cmd = "/* Error executing CFR: " ++ e ++ " */") := by
  refine ⟨?_, ?_, ?_⟩
  · intro so se h
    constructor
    · intro hs
      simp only [run_cfr_sync_v2, h]
      rw [if_neg]
      rintro ⟨-, hne⟩
      exact hne hs
    · intro hs
      have hne : se ≠ "" := by
        intro he
        apply hs
        rw [he]
        rfl
      simp only [run_cfr_sync_v2, h]
      rw [if_pos ⟨hne, hs⟩]
  · intro h
    simp only [run_cfr_sync_v2, h]
  · intro e h
    simp only [run_cfr_sync_v2, h]

/-- Witness for C3 at concrete outcomes. -/
theorem run_cfr_total_cases_witness :
    (run_cfr_sync_v2 (fun _ => ExecOutcome.completed "out" "") [] = "out") ∧
    (run_cfr_sync_v2 (fun _ => ExecOutcome.completed "out" " err ") ["x"] =
      "out" ++ ("\n\n/*\n[CFR STDERR]\n" ++ " err " ++ "\n*/")) ∧
    (run_cfr_sync_v2 (fun _ => ExecOutcome.timeout) [] =
      "/* Error: Decompilation timed out. (反编译超时) */") ∧
    (run_cfr_sync_v2 (fun _ => ExecOutcome.failed "boom") [] =
      "/* Error executing CFR: " ++ "boom" ++ " */") := by
  refine ⟨?_, ?_, ?_, ?_⟩
  · exact ((run_cfr_total_cases (fun _ => .completed "out" "") []).1 "out" "" rfl).1 rfl
  · exact ((run_cfr_total_cases (fun _ => .completed "out" " err ") ["x"]).1 "out" " err "
      rfl).2 (by decide)
  · exact (run_cfr_total_cases (fun _ => .timeout) []).2.1 rfl
  · exact (run_cfr_total_cases (fun _ => .failed "boom") []).2.2 "boom" rfl

/-- Claim C6: soundness of the method-byte scan: every entry name it
returns ends in `.class` and names an archive entry whose raw bytes
contain the UTF-8 encoding of the token as a byte substring. -/
theorem find_classes_sound (jar : JarFile) (method_name cf : String)
    (h : cf ∈ find_classes_in_jar jar method_name) :
    strEndsWith cf ".class" = true ∧
    ∃ e ∈ jar.entries, e.filename = cf ∧ utf8Bytes method_name <:+: e.content := by
  rcases mem_find_classes jar method_name cf h with ⟨e, hmem, hfn, hcl, hin⟩
  exact ⟨hcl, e, hmem, hfn, hin⟩

/-- Witness for C6 on a concrete archive. -/
theorem find_classes_sound_witness :
    strEndsWith "A.class" ".class" = true ∧
    ∃ e ∈ (JarFile.mk "lib.jar" 7 [JarEntry.mk "A.class" (utf8Bytes "foo")]).entries,
      e.filename = "A.class" ∧ utf8Bytes "foo" <:+: e.content :=
  find_classes_sound (JarFile.mk "lib.jar" 7 [JarEntry.mk "A.class" (utf8Bytes "foo")])
    "foo" "A.class" (by decide)

/-- Claim C7: when the scan yields zero candidates, both strategies
return the descriptive not-found message immediately, with an empty
side-effect trace: no workspace is created, no entry is extracted, and
no child process is invoked. -/
theorem scan_empty_no_invocation (jar : JarFile) (method_name class_name : String)
    (base_cmd_args : List String) (w : World)
    (hm : find_classes_in_jar jar method_name = [])
    (hc : find_class_by_name_in_jar jar class_name = []) :
    decompile_jar_method_run jar method_name base_cmd_args w
      = (notFoundMsgMethod method_name jar.name jar.size, []) ∧
    decompile_jar_class_run jar class_name base_cmd_args w
      = (classNotFoundMsg class_name jar.name, []) := by
  constructor
  · unfold decompile_jar_method_run
    simp only [hm, if_pos]
  · unfold decompile_jar_class_run
    simp only [hc, if_pos]

/-- Witness for C7 on an archive with no matching entries. -/
theorem scan_empty_no_invocation_witness :
    decompile_jar_method_run (JarFile.mk "e.jar" 3 [JarEntry.mk "B.class" [1, 2]]) "foo" []
        (World.mk (fun _ => .error "no") (fun _ => .timeout))
      = (notFoundMsgMethod "foo" "e.jar" 3, []) ∧
    decompile_jar_class_run (JarFile.mk "e.jar" 3 [JarEntry.mk "B.class" [1, 2]]) "Foo" []
        (World.mk (fun _ => .error "no") (fun _ => .timeout))
      = (classNotFoundMsg "Foo" "e.jar", []) :=
  scan_empty_no_invocation (JarFile.mk "e.jar" 3 [JarEntry.mk "B.class" [1, 2]]) "foo" "Foo"
    [] (World.mk (fun _ => .error "no") (fun _ => .timeout)) (by decide) (by decide)

/-- Claim C8 (code bug): Python's `$` anchor also matches just before a
trailing newline, so `validate_option_key` accepts the key `"abc\n"`,
which contains whitespace and is not a run of alphanumerics, and the
option loop forwards it as a `--` flag — contradicting the documented
`^[A-Za-z0-9]+$` contract and the whitespace-is-never-forwarded
property. -/
theorem validate_trailing_newline_bug :
    validate_option_key "abc\n" = true ∧
    (∃ c ∈ "abc\n".data, isPyWhite c = true) ∧
    "abc\n".data.all isAlnumAscii = false ∧
    optionArgs [("abc\n", PyVal.pstr "x")] = ["--abc\n", "x"] := by
  decide

/-- Claim C5: a fully-qualified query (containing `.`, not ending in
`.class`) returns exactly the entries whose path equals the translated
path, never more than one when entry names are distinct; a simple-name
query returns exactly the entries whose path equals `<Name>.class` or
ends with `/<Name>.class`, where `<Name>` is the query with its
`.class` occurrences removed — which is the query itself whenever the
query contains no dot. -/
theorem find_class_by_name_charact (jar : JarFile) (q : String) :
    (strContains q "." = true → strEndsWith q ".class" = false →
      find_class_by_name_in_jar jar q =
        (jar.entries.filter (fun e => e.filename == replaceDotSlash q ++ ".class")).map
          (fun e => e.filename) ∧
      ((jar.entries.map (fun e => e.filename)).Nodup →
        (find_class_by_name_in_jar jar q).length ≤ 1)) ∧
    ((strContains q "." = false ∨ strEndsWith q ".class" = true) →
      find_class_by_name_in_jar jar q =
        (jar.entries.filter (fun e =>
          strEndsWith e.filename ("/" ++ (removeClassOcc q ++ ".class")) ||
          e.filename == removeClassOcc q ++ ".class")).map (fun e => e.filename)) ∧
    (strContains q "." = false → removeClassOcc q = q) := by
  refine ⟨?_, ?_, ?_⟩
  · intro hc he
    have hexact : (strContains q "." && ! strEndsWith q ".class") = true := by
      rw [hc, he]
      rfl
    have hres : find_class_by_name_in_jar jar q =
        (jar.entries.filter (fun e => e.filename == replaceDotSlash q ++ ".class")).map
          (fun e => e.filename) := by
      unfold find_class_by_name_in_jar
      simp only [hexact, if_true]
      refine congrArg (List.map _) (List.filter_congr ?_)
      intro e _
      cases heq : (e.filename == replaceDotSlash q ++ ".class") with
      | false => rw [Bool.and_false]
      | true =>
        rw [Bool.and_true]
        have hfe : e.filename = replaceDotSlash q ++ ".class" := by simpa using heq
        rw [hfe]
        exact strEndsWith_append _ _
    refine ⟨hres, ?_⟩
    intro hnodup
    apply length_le_one_of_nodup_const _ (replaceDotSlash q ++ ".class")
    · rw [hres]
      exact (((List.filter_sublist jar.entries).map (fun e => e.filename)).nodup hnodup)
    · intro x hx
      rw [hres] at hx
      rcases List.mem_map.1 hx with ⟨e, he2, rfl⟩
      simpa using (List.mem_filter.1 he2).2
  · intro hor
    have hexact : (strContains q "." && ! strEndsWith q ".class") = false := by
      rcases hor with h | h
      · rw [h, Bool.false_and]
      · rw [h]
        simp
    unfold find_class_by_name_in_jar
    simp only [hexact, if_false, Bool.false_eq_true]
    refine congrArg (List.map _) (List.filter_congr ?_)
    intro e _
    cases h2 : (strEndsWith e.filename ("/" ++ (removeClassOcc q ++ ".class")) ||
        e.filename == removeClassOcc q ++ ".class") with
    | false => rw [Bool.and_false]
    | true =>
      rw [Bool.and_true]
      simp only [Bool.or_eq_true] at h2
      rcases h2 with hsuf | heq
      · refine strEndsWith_of_suffix_trans _ _ _ hsuf ?_
        rw [String.data_append, String.data_append, ← List.append_assoc]
        exact List.suffix_append _ _
      · have hfe : e.filename = removeClassOcc q ++ ".class" := by simpa using heq
        rw [hfe]
        exact strEndsWith_append _ _
  · intro hc
    exact removeClassOcc_no_dot q ((strContains_dot_false_iff q).1 hc)

/-- Witness for C5 on a concrete archive, one fully-qualified query and
one simple-name query. -/
theorem find_class_by_name_charact_witness :
    find_class_by_name_in_jar
        (JarFile.mk "lib.jar" 4 [JarEntry.mk "a/b/Foo.class" [], JarEntry.mk "Foo.class" []])
        "a.b.Foo"
      = ((JarFile.mk "lib.jar" 4
            [JarEntry.mk "a/b/Foo.class" [], JarEntry.mk "Foo.class" []]).entries.filter
          (fun e => e.filename == replaceDotSlash "a.b.Foo" ++ ".class")).map
          (fun e => e.filename) ∧
    (find_class_by_name_in_jar
        (JarFile.mk "lib.jar" 4 [JarEntry.mk "a/b/Foo.class" [], JarEntry.mk "Foo.class" []])
        "a.b.Foo").length ≤ 1 ∧
    find_class_by_name_in_jar
        (JarFile.mk "lib.jar" 4 [JarEntry.mk "a/b/Foo.class" [], JarEntry.mk "Foo.class" []])
        "Foo"
      = ((JarFile.mk "lib.jar" 4
            [JarEntry.mk "a/b/Foo.class" [], JarEntry.mk "Foo.class" []]).entries.filter
          (fun e =>
            strEndsWith e.filename ("/" ++ (removeClassOcc "Foo" ++ ".class")) ||
            e.filename == removeClassOcc "Foo" ++ ".class")).map (fun e => e.filename) ∧
    removeClassOcc "Foo" = "Foo" :=
  ⟨((find_class_by_name_charact
      (JarFile.mk "lib.jar" 4 [JarEntry.mk "a/b/Foo.class" [], JarEntry.mk "Foo.class" []])
      "a.b.Foo").1 (by decide) (by decide)).1,
   ((find_class_by_name_charact
      (JarFile.mk "lib.jar" 4 [JarEntry.mk "a/b/Foo.class" [], JarEntry.mk "Foo.class" []])
      "a.b.Foo").1 (by decide) (by decide)).2 (by decide),
   (find_class_by_name_charact
      (JarFile.mk "lib.jar" 4 [JarEntry.mk "a/b/Foo.class" [], JarEntry.mk "Foo.class" []])
      "Foo").2.1 (Or.inl (by decide)),
   (find_class_by_name_charact
      (JarFile.mk "lib.jar" 4 [JarEntry.mk "a/b/Foo.class" [], JarEntry.mk "Foo.class" []])
      "Foo").2.2 (by decide)⟩

/-- Counterexample to claim C2: in the method-name strategy a
candidate whose extraction raises is only logged — no diagnostic block
for it appears in the aggregated result (the class-name strategy does
record one).  Here `A.class` fails extraction, yet the aggregate is
exactly `B.class`'s block and contains no failure diagnostic. -/
theorem jar_method_failure_not_recorded :
    "A.class" ∈ find_classes_in_jar
      (JarFile.mk "lib.jar" 10
        [JarEntry.mk "A.class" (utf8Bytes "foo"), JarEntry.mk "B.class" (utf8Bytes "foo")])
      "foo" ∧
    (World.mk (fun cf => if cf == "A.class" then .error "boom" else .ok ("/tmp/t/" ++ cf))
      (fun _ => .completed "int foo()" "")).extract "A.class" = .error "boom" ∧
    decompile_jar_method_results
      (JarFile.mk "lib.jar" 10
        [JarEntry.mk "A.class" (utf8Bytes "foo"), JarEntry.mk "B.class" (utf8Bytes "foo")])
      "foo" []
      (World.mk (fun cf => if cf == "A.class" then .error "boom" else .ok ("/tmp/t/" ++ cf))
        (fun _ => .completed "int foo()" ""))
      = ["// Source: B.class\nint foo()"] ∧
    (decompile_jar_method_run
      (JarFile.mk "lib.jar" 10
        [JarEntry.mk "A.class" (utf8Bytes "foo"), JarEntry.mk "B.class" (utf8Bytes "foo")])
      "foo" []
      (World.mk (fun cf => if cf == "A.class" then .error "boom" else .ok ("/tmp/t/" ++ cf))
        (fun _ => .completed "int foo()" ""))).1
      = "// Source: B.class\nint foo()" ∧
    strContains "// Source: B.class\nint foo()" "Failed to decompile" = false := by
  refine ⟨by decide, rfl, by decide, by decide, by decide⟩

/-- Claim C2 amended: in the class-name strategy a failing candidate is
recorded as its own diagnostic block and the others are still
retained; in the method-name strategy a failing candidate yields no
block at all (it is only logged), but the remaining candidates are
still processed and retained, so one failure never discards the
others' output. -/
theorem jar_partial_failure_behavior (jar : JarFile) (class_name method_name : String)
    (base : List String) (w : World) :
    (∀ cf ∈ find_class_by_name_in_jar jar class_name, ∀ e, w.extract cf = .error e →
      ("/* Failed to decompile " ++ cf ++ ": " ++ e ++ " */")
        ∈ decompile_jar_class_results jar class_name base w) ∧
    (∀ cf ∈ find_class_by_name_in_jar jar class_name, ∀ p, w.extract cf = .ok p →
      (run_cfr_sync_v2 w.exec (["java", "-jar", CFR_JAR_PATH, p] ++ base) ≠ "" ∧
        strStrip (run_cfr_sync_v2 w.exec (["java", "-jar", CFR_JAR_PATH, p] ++ base)) ≠ "") →
      ("// Source: " ++ cf ++ "\n" ++
          run_cfr_sync_v2 w.exec (["java", "-jar", CFR_JAR_PATH, p] ++ base))
        ∈ decompile_jar_class_results jar class_name base w) ∧
    (∀ cf ∈ find_classes_in_jar jar method_name, ∀ e, w.extract cf = .error e →
      (methodStep w method_name base cf).1 = none) ∧
    (∀ cf ∈ find_classes_in_jar jar method_name, ∀ p, w.extract cf = .ok p →
      strContains (run_cfr_sync_v2 w.exec (["java", "-jar", CFR_JAR_PATH, p] ++ base))
          method_name = true →
      ("// Source: " ++ cf ++ "\n" ++
          run_cfr_sync_v2 w.exec (["java", "-jar", CFR_JAR_PATH, p] ++ base))
        ∈ decompile_jar_method_results jar method_name base w) := by
  refine ⟨?_, ?_, ?_, ?_⟩
  · intro cf hcf e herr
    exact List.mem_filterMap.2 ⟨cf, hcf, by simp [classStep, herr]⟩
  · intro cf hcf p hok hcond
    refine List.mem_filterMap.2 ⟨cf, hcf, ?_⟩
    simp [classStep, hok]
    exact hcond
  · intro cf _ e herr
    simp [methodStep, herr]
  · intro cf hcf p hok hc
    refine List.mem_filterMap.2 ⟨cf, hcf, ?_⟩
    simp [methodStep, hok]
    exact hc

/-- Witness for the amended C2 on a concrete archive where `A.class`
fails extraction and `B.class` succeeds. -/
theorem jar_partial_failure_behavior_witness :
    ("/* Failed to decompile " ++ "A.class" ++ ": " ++ "boom" ++ " */")
      ∈ decompile_jar_class_results
        (JarFile.mk "w.jar" 5
          [JarEntry.mk "A.class" (utf8Bytes "foo"), JarEntry.mk "B.class" (utf8Bytes "foo")])
        "A" []
        (World.mk (fun cf => if cf == "A.class" then .error "boom" else .ok ("/t/" ++ cf))
          (fun _ => .completed "int foo()" "")) ∧
    (methodStep
      (World.mk (fun cf => if cf == "A.class" then .error "boom" else .ok ("/t/" ++ cf))
        (fun _ => .completed "int foo()" ""))
      "foo" [] "A.class").1 = none ∧
    ("// Source: " ++ "B.class" ++ "\n" ++
        run_cfr_sync_v2
          (World.mk (fun cf => if cf == "A.class" then .error "boom" else .ok ("/t/" ++ cf))
            (fun _ => .completed "int foo()" "")).exec
          (["java", "-jar", CFR_JAR_PATH, "/t/B.class"] ++ []))
      ∈ decompile_jar_method_results
        (JarFile.mk "w.jar" 5
          [JarEntry.mk "A.class" (utf8Bytes "foo"), JarEntry.mk "B.class" (utf8Bytes "foo")])
        "foo" []
        (World.mk (fun cf => if cf == "A.class" then .error "boom" else .ok ("/t/" ++ cf))
          (fun _ => .completed "int foo()" "")) :=
  ⟨(jar_partial_failure_behavior
      (JarFile.mk "w.jar" 5
        [JarEntry.mk "A.class" (utf8Bytes "foo"), JarEntry.mk "B.class" (utf8Bytes "foo")])
      "A" "foo" []
      (World.mk (fun cf => if cf == "A.class" then .error "boom" else .ok ("/t/" ++ cf))
        (fun _ => .completed "int foo()" ""))).1 "A.class" (by decide) "boom" rfl,
   (jar_partial_failure_behavior
      (JarFile.mk "w.jar" 5
        [JarEntry.mk "A.class" (utf8Bytes "foo"), JarEntry.mk "B.class" (utf8Bytes "foo")])
      "A" "foo" []
      (World.mk (fun cf => if cf == "A.class" then .error "boom" else .ok ("/t/" ++ cf))
        (fun _ => .completed "int foo()" ""))).2.2.1 "A.class" (by decide) "boom" rfl,
   (jar_partial_failure_behavior
      (JarFile.mk "w.jar" 5
        [JarEntry.mk "A.class" (utf8Bytes "foo"), JarEntry.mk "B.class" (utf8Bytes "foo")])
      "A" "foo" []
      (World.mk (fun cf => if cf == "A.class" then .error "boom" else .ok ("/t/" ++ cf))
        (fun _ => .completed "int foo()" ""))).2.2.2 "B.class" (by decide) "/t/B.class" rfl
     (by decide)⟩

/-- Claim C1: in the method-search path a successfully extracted
candidate's labeled block appears among the retained results iff the
literal method name occurs in that candidate's CFR output; a non-empty
scan with zero retained blocks yields the "matched binary search"
message; an empty scan yields the "not found" message; and the two
messages always differ. -/
theorem jar_method_postfilter_iff (jar : JarFile) (m : String) (base : List String)
    (w : World) (hnl : ∀ e ∈ jar.entries, '\n' ∉ e.filename.data) :
    (∀ cf ∈ find_classes_in_jar jar m, ∀ p, w.extract cf = .ok p →
      (("// Source: " ++ cf ++ "\n" ++
          run_cfr_sync_v2 w.exec (["java", "-jar", CFR_JAR_PATH, p] ++ base))
          ∈ decompile_jar_method_results jar m base w
        ↔ strContains (run_cfr_sync_v2 w.exec (["java", "-jar", CFR_JAR_PATH, p] ++ base)) m
            = true)) ∧
    (find_classes_in_jar jar m ≠ [] → decompile_jar_method_results jar m base w = [] →
      (decompile_jar_method_run jar m base w).1
        = noOutputMsgMethod m (find_classes_in_jar jar m).length) ∧
    (find_classes_in_jar jar m = [] →
      (decompile_jar_method_run jar m base w).1 = notFoundMsgMethod m jar.name jar.size) ∧
    (∀ k, noOutputMsgMethod m k ≠ notFoundMsgMethod m jar.name jar.size) := by
  refine ⟨?_, ?_, ?_, ?_⟩
  · intro cf hcf p hp
    constructor
    · intro hmem
      rcases List.mem_filterMap.1 hmem with ⟨cf', hcf', hstep⟩
      rcases hex : w.extract cf' with e | p'
      · simp [methodStep, hex] at hstep
      · simp only [methodStep, hex] at hstep
        by_cases hc' :
            strContains (run_cfr_sync_v2 w.exec (["java", "-jar", CFR_JAR_PATH, p'] ++ base)) m
              = true
        · rw [if_pos hc'] at hstep
          have hb := Option.some.inj hstep
          have hn1 : '\n' ∉ cf'.data := by
            rcases mem_find_classes jar m cf' hcf' with ⟨e1, he1, hfe1, -, -⟩
            exact hfe1 ▸ hnl e1 he1
          have hn2 : '\n' ∉ cf.data := by
            rcases mem_find_classes jar m cf hcf with ⟨e2, he2, hfe2, -, -⟩
            exact hfe2 ▸ hnl e2 he2
          obtain ⟨hcfeq, houteq⟩ := block_inj cf' cf _ _ hn1 hn2 hb
          rw [← houteq]
          exact hc'
        · rw [if_neg hc'] at hstep
          exact absurd hstep (by simp)
    · intro hc
      refine List.mem_filterMap.2 ⟨cf, hcf, ?_⟩
      simp [methodStep, hp]
      exact hc
  · intro hne hres
    simp [decompile_jar_method_run, hne, hres]
  · intro hm
    simp [decompile_jar_method_run, hm]
  · intro k
    exact noOutput_ne_notFound m jar.name k jar.size

/-- Witness for C1 on a concrete archive with one candidate whose
output contains the method name. -/
theorem jar_method_postfilter_iff_witness :
    (("// Source: " ++ "A.class" ++ "\n" ++
        run_cfr_sync_v2
          (World.mk (fun _ => .ok "pA") (fun _ => .completed "int foo()" "")).exec
          (["java", "-jar", CFR_JAR_PATH, "pA"] ++ []))
        ∈ decompile_jar_method_results
          (JarFile.mk "lib.jar" 9 [JarEntry.mk "A.class" (utf8Bytes "foo")]) "foo" []
          (World.mk (fun _ => .ok "pA") (fun _ => .completed "int foo()" ""))
      ↔ strContains
          (run_cfr_sync_v2
            (World.mk (fun _ => .ok "pA") (fun _ => .completed "int foo()" "")).exec
            (["java", "-jar", CFR_JAR_PATH, "pA"] ++ [])) "foo" = true) ∧
    noOutputMsgMethod "foo" 1 ≠ notFoundMsgMethod "foo" "lib.jar" 9 :=
  ⟨(jar_method_postfilter_iff
      (JarFile.mk "lib.jar" 9 [JarEntry.mk "A.class" (utf8Bytes "foo")]) "foo" []
      (World.mk (fun _ => .ok "pA") (fun _ => .completed "int foo()" ""))
      (by decide)).1 "A.class" (by decide) "pA" rfl,
   (jar_method_postfilter_iff
      (JarFile.mk "lib.jar" 9 [JarEntry.mk "A.class" (utf8Bytes "foo")]) "foo" []
      (World.mk (fun _ => .ok "pA") (fun _ => .completed "int foo()" ""))
      (by decide)).2.2.2 1⟩

/-- Claim C9: with the tool name `decompile`, a falsy `file_path` is the
only argument condition that makes the call raise; a resolved path that
does not exist returns the `Error: File not found` text with an empty
trace (no process spawned), and a missing CFR jar likewise returns the
`Error: CFR jar not found` text rather than raising. -/
theorem dispatch_error_paths (a : Args) (sys : Sys) :
    ((∃ e, call_tool_v2 "decompile" a sys = .error e) ↔ truthyS a.file_path = false) ∧
    (truthyS a.file_path = true →
      sys.pathExists (sys.resolve (a.file_path.getD "")) = false →
      call_tool_v2 "decompile" a sys
        = .ok ("Error: File not found: " ++ sys.resolve (a.file_path.getD ""), [])) ∧
    (truthyS a.file_path = true →
      sys.pathExists (sys.resolve (a.file_path.getD "")) = true →
      sys.pathExists CFR_JAR_PATH = false →
      call_tool_v2 "decompile" a sys
        = .ok ("Error: CFR jar not found at: " ++ CFR_JAR_PATH, [])) := by
  refine ⟨⟨?_, ?_⟩, ?_, ?_⟩
  · rintro ⟨e, he⟩
    by_contra htr
    rw [Bool.not_eq_false] at htr
    simp only [call_tool_v2] at he
    rw [if_neg (by simp)] at he
    rw [if_neg (by simp [htr])] at he
    by_cases h1 : sys.pathExists (sys.resolve (a.file_path.getD "")) = false
    · rw [if_pos h1] at he
      exact Except.noConfusion he
    · rw [if_neg h1] at he
      by_cases h2 : sys.pathExists CFR_JAR_PATH = false
      · rw [if_pos h2] at he
        exact Except.noConfusion he
      · rw [if_neg h2] at he
        by_cases h3 :
            (strLower (sys.suffix (sys.resolve (a.file_path.getD ""))) == ".jar") = true
        · rw [if_pos h3] at he
          by_cases h4 : truthyS a.class_name = true
          · rw [if_pos h4] at he
            exact Except.noConfusion he
          · rw [if_neg h4] at he
            by_cases h5 : truthyS a.method_name = true
            · rw [if_pos h5] at he
              exact Except.noConfusion he
            · rw [if_neg h5] at he
              exact Except.noConfusion he
        · rw [if_neg h3] at he
          exact Except.noConfusion he
  · intro h
    simp only [call_tool_v2]
    rw [if_neg (by simp), if_pos h]
    exact ⟨_, rfl⟩
  · intro h1 h2
    simp only [call_tool_v2]
    rw [if_neg (by simp), if_neg (by simp [h1]), if_pos h2]
  · intro h1 h2 h3
    simp only [call_tool_v2]
    rw [if_neg (by simp), if_neg (by simp [h1]), if_neg (by simp [h2]), if_pos h3]

/-- Witness for C9: a present path that does not exist yields the
not-found text with no spawned process; a falsy path yields a raise. -/
theorem dispatch_error_paths_witness :
    call_tool_v2 "decompile" (Args.mk (some "/nope") none none none none [])
        (Sys.mk (fun s => s) (fun _ => false) (fun _ => "") (fun _ => JarFile.mk "" 0 [])
          (World.mk (fun _ => .error "e") (fun _ => .timeout)))
      = .ok ("Error: File not found: " ++ "/nope", []) ∧
    (∃ e, call_tool_v2 "decompile" (Args.mk none none none none none [])
        (Sys.mk (fun s => s) (fun _ => false) (fun _ => "") (fun _ => JarFile.mk "" 0 [])
          (World.mk (fun _ => .error "e") (fun _ => .timeout)))
      = .error e) :=
  ⟨(dispatch_error_paths (Args.mk (some "/nope") none none none none [])
      (Sys.mk (fun s => s) (fun _ => false) (fun _ => "") (fun _ => JarFile.mk "" 0 [])
        (World.mk (fun _ => .error "e") (fun _ => .timeout)))).2.1 (by decide) rfl,
   (dispatch_error_paths (Args.mk none none none none none [])
      (Sys.mk (fun s => s) (fun _ => false) (fun _ => "") (fun _ => JarFile.mk "" 0 [])
        (World.mk (fun _ => .error "e") (fun _ => .timeout)))).1.2 rfl⟩

/-- Claim C4: v2 routing — on a `.jar` suffix (case-insensitive) a
truthy `class_name` wins even when `method_name` is also given; a truthy
`method_name` without `class_name` selects the method-search strategy;
neither selects a single CFR invocation on the archive itself; and a
non-`.jar` path yields a single invocation on the file with
`--methodname` appended exactly when `method_name` is given. -/
theorem call_tool_routing_v2 (a : Args) (sys : Sys)
    (hfp : truthyS a.file_path = true)
    (hex : sys.pathExists (sys.resolve (a.file_path.getD "")) = true)
    (hcfr : sys.pathExists CFR_JAR_PATH = true) :
    (strLower (sys.suffix (sys.resolve (a.file_path.getD ""))) = ".jar" →
      truthyS a.class_name = true →
      call_tool_v2 "decompile" a sys
        = .ok (decompile_jar_class_run (sys.jarAt (sys.resolve (a.file_path.getD "")))
            (a.class_name.getD "") (base_args_v2 a) sys.world)) ∧
    (strLower (sys.suffix (sys.resolve (a.file_path.getD ""))) = ".jar" →
      truthyS a.class_name = false → truthyS a.method_name = true →
      call_tool_v2 "decompile" a sys
        = .ok (decompile_jar_method_run (sys.jarAt (sys.resolve (a.file_path.getD "")))
            (a.method_name.getD "")
            (base_args_v2 a ++ ["--methodname", a.method_name.getD ""]) sys.world)) ∧
    (strLower (sys.suffix (sys.resolve (a.file_path.getD ""))) = ".jar" →
      truthyS a.class_name = false → truthyS a.method_name = false →
      call_tool_v2 "decompile" a sys
        = .ok (run_cfr_sync_v2 sys.world.exec
            (["java", "-jar", CFR_JAR_PATH, sys.resolve (a.file_path.getD "")] ++
              base_args_v2 a),
          [Event.exec (["java", "-jar", CFR_JAR_PATH, sys.resolve (a.file_path.getD "")] ++
              base_args_v2 a)])) ∧
    (strLower (sys.suffix (sys.resolve (a.file_path.getD ""))) ≠ ".jar" →
      call_tool_v2 "decompile" a sys
        = .ok (run_cfr_sync_v2 sys.world.exec
            (["java", "-jar", CFR_JAR_PATH, sys.resolve (a.file_path.getD "")] ++
              (base_args_v2 a ++
                (if truthyS a.method_name = true then
                  ["--methodname", a.method_name.getD ""] else []))),
          [Event.exec (["java", "-jar", CFR_JAR_PATH, sys.resolve (a.file_path.getD "")] ++
              (base_args_v2 a ++
                (if truthyS a.method_name = true then
                  ["--methodname", a.method_name.getD ""] else [])))])) := by
  refine ⟨?_, ?_, ?_, ?_⟩
  · intro hsuf hcn
    simp only [call_tool_v2]
    rw [if_neg (by simp), if_neg (by simp [hfp]), if_neg (by simp [hex]),
        if_neg (by simp [hcfr]), if_pos (by rw [hsuf]; rfl), if_pos hcn]
  · intro hsuf hcn hmn
    simp only [call_tool_v2]
    rw [if_neg (by simp), if_neg (by simp [hfp]), if_neg (by simp [hex]),
        if_neg (by simp [hcfr]), if_pos (by rw [hsuf]; rfl), if_neg (by simp [hcn]), if_pos hmn]
  · intro hsuf hcn hmn
    simp only [call_tool_v2]
    rw [if_neg (by simp), if_neg (by simp [hfp]), if_neg (by simp [hex]),
        if_neg (by simp [hcfr]), if_pos (by rw [hsuf]; rfl), if_neg (by simp [hcn]),
        if_neg (by simp [hmn])]
  · intro hsuf
    simp only [call_tool_v2]
    rw [if_neg (by simp), if_neg (by simp [hfp]), if_neg (by simp [hex]),
        if_neg (by simp [hcfr]), if_neg (by simp [hsuf])]

/-- Witness for C4: a `.JAR` suffix with both names given routes to the
class strategy; a `.class` suffix yields a single invocation with the
method flag appended. -/
theorem call_tool_routing_v2_witness :
    call_tool_v2 "decompile" (Args.mk (some "/x/a.JAR") (some "Foo") (some "bar") none none [])
        (Sys.mk (fun s => s) (fun _ => true) (fun _ => ".JAR")
          (fun _ => JarFile.mk "a.JAR" 0 [])
          (World.mk (fun _ => .error "x") (fun _ => .timeout)))
      = .ok (decompile_jar_class_run (JarFile.mk "a.JAR" 0 []) "Foo"
          (base_args_v2 (Args.mk (some "/x/a.JAR") (some "Foo") (some "bar") none none []))
          (World.mk (fun _ => .error "x") (fun _ => .timeout))) ∧
    call_tool_v2 "decompile" (Args.mk (some "/x/F.class") none (some "bar") none none [])
        (Sys.mk (fun s => s) (fun _ => true) (fun _ => ".class")
          (fun _ => JarFile.mk "F" 0 [])
          (World.mk (fun _ => .error "x") (fun _ => .timeout)))
      = .ok (run_cfr_sync_v2
          (World.mk (fun _ => .error "x") (fun _ => ExecOutcome.timeout)).exec
          (["java", "-jar", CFR_JAR_PATH, "/x/F.class"] ++
            (base_args_v2 (Args.mk (some "/x/F.class") none (some "bar") none none []) ++
              ["--methodname", "bar"])),
        [Event.exec (["java", "-jar", CFR_JAR_PATH, "/x/F.class"] ++
            (base_args_v2 (Args.mk (some "/x/F.class") none (some "bar") none none []) ++
              ["--methodname", "bar"]))]) := by
  constructor
  · exact (call_tool_routing_v2
      (Args.mk (some "/x/a.JAR") (some "Foo") (some "bar") none none [])
      (Sys.mk (fun s => s) (fun _ => true) (fun _ => ".JAR")
        (fun _ => JarFile.mk "a.JAR" 0 [])
        (World.mk (fun _ => .error "x") (fun _ => .timeout)))
      (by decide) rfl rfl).1 (by decide) (by decide)
  · have h := (call_tool_routing_v2
      (Args.mk (some "/x/F.class") none (some "bar") none none [])
      (Sys.mk (fun s => s) (fun _ => true) (fun _ => ".class")
        (fun _ => JarFile.mk "F" 0 [])
        (World.mk (fun _ => .error "x") (fun _ => .timeout)))
      (by decide) rfl rfl).2.2.2 (by decide)
    simpa using h

/-- Claim C10: with neither `method_name` nor `class_name` given, an
existing target file and a present CFR jar, both server versions build
the identical command vector and perform exactly that one invocation;
the versions differ in their timeout constants, 30 against 60 s. -/
theorem v1_v2_cmd_equiv (a : Args) (sys : Sys)
    (hfp : truthyS a.file_path = true)
    (hm : truthyS a.method_name = false)
    (hc : truthyS a.class_name = false)
    (hex : sys.pathExists (sys.resolve (a.file_path.getD "")) = true)
    (hcfr : sys.pathExists CFR_JAR_PATH = true) :
    call_tool_v1 "decompile" a sys
      = .ok (run_cfr_sync_v1 sys.world.exec
          (["java", "-jar", CFR_JAR_PATH, sys.resolve (a.file_path.getD "")] ++
            base_args_v2 a),
        [Event.exec (["java", "-jar", CFR_JAR_PATH, sys.resolve (a.file_path.getD "")] ++
            base_args_v2 a)]) ∧
    call_tool_v2 "decompile" a sys
      = .ok (run_cfr_sync_v2 sys.world.exec
          (["java", "-jar", CFR_JAR_PATH, sys.resolve (a.file_path.getD "")] ++
            base_args_v2 a),
        [Event.exec (["java", "-jar", CFR_JAR_PATH, sys.resolve (a.file_path.getD "")] ++
            base_args_v2 a)]) ∧
    CMD_TIMEOUT_SECONDS_v1 = 30 ∧ CMD_TIMEOUT_SECONDS_v2 = 60 := by
  refine ⟨?_, ?_, rfl, rfl⟩
  · simp only [call_tool_v1]
    rw [if_neg (by simp), if_neg (by simp [hfp]), if_neg (by simp [hex]),
        if_neg (by simp [hcfr]), hm]
    simp [base_args_v2]
  · simp only [call_tool_v2]
    rw [if_neg (by simp), if_neg (by simp [hfp]), if_neg (by simp [hex]),
        if_neg (by simp [hcfr])]
    by_cases hsuf : (strLower (sys.suffix (sys.resolve (a.file_path.getD ""))) == ".jar") = true
    · rw [if_pos hsuf, if_neg (by simp [hc]), if_neg (by simp [hm])]
    · rw [if_neg hsuf, hm]
      simp

/-- Witness for C10 at a concrete argument set and environment. -/
theorem v1_v2_cmd_equiv_witness :
    call_tool_v1 "decompile" (Args.mk (some "/x/F.class") none none none none [])
        (Sys.mk (fun s => s) (fun _ => true) (fun _ => ".class")
          (fun _ => JarFile.mk "" 0 [])
          (World.mk (fun _ => .error "e") (fun _ => .completed "src" "")))
      = .ok (run_cfr_sync_v1
          (World.mk (fun _ => .error "e") (fun _ => ExecOutcome.completed "src" "")).exec
          (["java", "-jar", CFR_JAR_PATH, "/x/F.class"] ++
            base_args_v2 (Args.mk (some "/x/F.class") none none none none [])),
        [Event.exec (["java", "-jar", CFR_JAR_PATH, "/x/F.class"] ++
            base_args_v2 (Args.mk (some "/x/F.class") none none none none []))]) ∧
    call_tool_v2 "decompile" (Args.mk (some "/x/F.class") none none none none [])
        (Sys.mk (fun s => s) (fun _ => true) (fun _ => ".class")
          (fun _ => JarFile.mk "" 0 [])
          (World.mk (fun _ => .error "e") (fun _ => .completed "src" "")))
      = .ok (run_cfr_sync_v2
          (World.mk (fun _ => .error "e") (fun _ => ExecOutcome.completed "src" "")).exec
          (["java", "-jar", CFR_JAR_PATH, "/x/F.class"] ++
            base_args_v2 (Args.mk (some "/x/F.class") none none none none [])),
        [Event.exec (["java", "-jar", CFR_JAR_PATH, "/x/F.class"] ++
            base_args_v2 (Args.mk (some "/x/F.class") none none none none []))]) := by
  have h := v1_v2_cmd_equiv (Args.mk (some "/x/F.class") none none none none [])
    (Sys.mk (fun s => s) (fun _ => true) (fun _ => ".class")
      (fun _ => JarFile.mk "" 0 [])
      (World.mk (fun _ => .error "e") (fun _ => .completed "src" "")))
    (by decide) rfl rfl rfl rfl
  exact ⟨h.1, h.2.1⟩

end CfrServer
